import Mathlib

/-!
Verification development for the terminal-canvas cell-buffer core
(src/Color.js and src/Cursor.js).

The JavaScript source is shallowly embedded: JS numbers that the claims
exercise are modelled as `Int` (the operations under study floor their
inputs, and all claims quantify over integers); a JS `NaN` channel value is
modelled as `Option.none`; the sparse JS array `this._terminal` is modelled
as a function `Int -> Option Cell` (reading a hole or an out-of-range index
of a JS array yields `undefined`, i.e. `none`); a JS method that can throw
is modelled with `Except`, the error payload carrying the heap state at the
moment the exception propagates.

`src/Cell.js` and `src/util/encodeToVT100.js` are imported by
`src/Cursor.js` but are not part of the two source files; those parts are
modelled from the spec and are marked as such in their doc comments.
-/

namespace TerminalCanvas

/-- The canonical rgb record produced by `Color.toRgb` (src/Color.js).
A channel is `none` when the stored JS value is `NaN` (which arises when a
channel property is absent, since `Math.max(0, Math.min(undefined, 255))`
is `NaN`). -/
structure Rgb where
  r : Option Int
  g : Option Int
  b : Option Int
deriving DecidableEq, Repr

/-- Modelled from the spec: the display attribute set (spec section 3,
DisplayAttributes) -- six independent boolean flags.  The attribute record
itself lives behind `this._display`, whose structure is not given by the
two source files. -/
structure Display where
  bold : Bool
  dim : Bool
  underlined : Bool
  blink : Bool
  reverse : Bool
  hidden : Bool
deriving DecidableEq, Repr

/-- Modelled from the spec: `Cell` (src/Cell.js is not under src/).
Per spec section 4.2 a Cell carries exactly the five fields character,
absolute position, background, foreground and display attributes, as passed
by `Cursor.write`: `new Cell(char, (x, y, background, foreground, display))`. -/
structure Cell where
  char : Char
  x : Int
  y : Int
  background : Rgb
  foreground : Rgb
  display : Display
deriving DecidableEq, Repr

/-- Modelled from the spec: `Cell.setChar` (src/Cell.js is not under src/).
Spec section 4.2: it replaces the character in place, used exclusively by
erase; every other field is preserved. -/
def Cell.setChar (c : Cell) (ch : Char) : Cell :=
  { c with char := ch }

/-- Render an optional channel the way the encoding consumes it
(a `NaN` channel renders as the string NaN). -/
def encodeOptInt : Option Int → String
  | none => "NaN"
  | some v => toString v

/-- Render an `Rgb` value for the cell encoding. -/
def Rgb.encode (c : Rgb) : String :=
  encodeOptInt c.r ++ "," ++ encodeOptInt c.g ++ "," ++ encodeOptInt c.b

/-- Render a `Display` value for the cell encoding. -/
def Display.encode (d : Display) : String :=
  toString d.bold ++ toString d.dim ++ toString d.underlined ++
    toString d.blink ++ toString d.reverse ++ toString d.hidden

/-- Modelled from the spec: `Cell.prototype.toString` /
`encodeToVT100` (src/Cell.js and src/util/encodeToVT100.js are not under
src/).  Spec section 4.2 requires the encoding to be a pure, referentially
transparent, deterministic function of the five fields; the concrete
sequence grammar is delegated to the external encoder, so a concrete
injective rendering of the five fields is used here. -/
def Cell.encode (c : Cell) : String :=
  "[" ++ toString c.x ++ ";" ++ toString c.y ++ ";" ++ c.background.encode
    ++ ";" ++ c.foreground.encode ++ ";" ++ c.display.encode ++ ";"
    ++ toString c.char ++ "]"

/-! ## Color (src/Color.js) -/

/-- The clamp used by the channel setters `setR`, `setG`, `setB`
(src/Color.js lines 78-81, 98-101, 118-121):
`Math.max(0, Math.min(value, 255))`. -/
def clampChannel (v : Int) : Int :=
  max 0 (min v 255)

/-- A `Color` instance (src/Color.js): the three stored channels `_r`,
`_g`, `_b`.  A channel is `none` when the stored JS value is `NaN`. -/
structure Color where
  r : Option Int
  g : Option Int
  b : Option Int
deriving DecidableEq, Repr

/-- Source `setR` (src/Color.js lines 78-81): stores the clamped value.
`Math.min` and `Math.max` propagate `NaN`, so a `none` input stays `none`. -/
def Color.setR (c : Color) (v : Option Int) : Color :=
  { c with r := v.map clampChannel }

/-- Source `setG` (src/Color.js lines 98-101). -/
def Color.setG (c : Color) (v : Option Int) : Color :=
  { c with g := v.map clampChannel }

/-- Source `setB` (src/Color.js lines 118-121). -/
def Color.setB (c : Color) (v : Option Int) : Color :=
  { c with b := v.map clampChannel }

/-- Source `getR` (src/Color.js lines 68-70): `Math.round(this._r)`, the identity
on the integer-valued channels this model stores (`Math.round(NaN)` is
`NaN`). -/
def Color.getR (c : Color) : Option Int := c.r

/-- Source `getG` (src/Color.js lines 88-90). -/
def Color.getG (c : Color) : Option Int := c.g

/-- Source `getB` (src/Color.js lines 108-110). -/
def Color.getB (c : Color) : Option Int := c.b

/-- Source `toRgb` (src/Color.js lines 128-130). -/
def Color.toRgb (c : Color) : Rgb :=
  { r := c.getR, g := c.getG, b := c.getB }

/-- One lowercase hexadecimal digit, as produced by the JS
`Number.prototype.toString(16)`. -/
def hexDigit (n : Nat) : Char :=
  if n < 10 then Char.ofNat (48 + n) else Char.ofNat (97 + n - 10)

/-- Source `Number.prototype.toString(16)` restricted to the byte range: the
channels that reach `toHex` have been clamped to `[0, 255]`, where the JS
conversion emits one or two lowercase hex digits with no padding. -/
def jsHexByte (n : Nat) : List Char :=
  if n < 16 then [hexDigit n] else [hexDigit (n / 16), hexDigit (n % 16)]

/-- The `pad2` helper inside `toHex` (src/Color.js line 138):
prefixes a zero when the channel rendered as a single digit. -/
def pad2 (l : List Char) : List Char :=
  if l.length = 1 then '0' :: l else l

/-- Render one stored channel for `toHex`.  The stored channels are always
clamped (hence non-negative) or `NaN`; `NaN.toString(16)` is the string
NaN. -/
def hexOfChannel : Option Int → List Char
  | none => ['N', 'a', 'N']
  | some v => jsHexByte v.toNat

/-- Source `toHex` (src/Color.js lines 137-140):
a hash sign followed by the three padded channel renderings. -/
def Color.toHex (c : Color) : String :=
  String.mk ('#' :: (pad2 (hexOfChannel c.getR) ++ pad2 (hexOfChannel c.getG)
    ++ pad2 (hexOfChannel c.getB)))

/-- The character class `[0-9A-F]` of `HEX_REGEX` (src/Color.js line 15)
under the `i` flag. -/
def isHexDigitJS (c : Char) : Bool :=
  ('0' ≤ c && c ≤ '9') || ('A' ≤ c && c ≤ 'F') || ('a' ≤ c && c ≤ 'f')

/-- Numeric value of a hex digit, as `parseInt(-, 16)` reads it. -/
def hexVal (c : Char) : Nat :=
  if '0' ≤ c && c ≤ '9' then c.toNat - 48
  else if 'a' ≤ c && c ≤ 'f' then c.toNat - 97 + 10
  else if 'A' ≤ c && c ≤ 'F' then c.toNat - 65 + 10
  else 0

/-- Source `parseInt(s, 16)` on a two-digit capture group. -/
def parseHex2 (l : List Char) : Nat :=
  match l with
  | [a, b] => hexVal a * 16 + hexVal b
  | _ => 0

/-- The search performed by `HEX_REGEX` (src/Color.js line 15):
`#([0-9A-F]2)([0-9A-F]2)([0-9A-F]2)` with the `i` flag and no anchors, so
it matches at the first position whose character is a hash sign followed by
six hex digits, anywhere in the string.  Returns the three capture
groups. -/
def hexScan : List Char → Option (List Char × List Char × List Char)
  | [] => none
  | c :: rest =>
    if c = '#' then
      match rest with
      | c1 :: c2 :: c3 :: c4 :: c5 :: c6 :: _ =>
        if isHexDigitJS c1 && isHexDigitJS c2 && isHexDigitJS c3 &&
            isHexDigitJS c4 && isHexDigitJS c5 && isHexDigitJS c6 then
          some ([c1, c2], [c3, c4], [c5, c6])
        else hexScan rest
      | _ => hexScan rest
    else hexScan rest

/-- Source `isHex` (src/Color.js lines 171-173): `HEX_REGEX.test(hex)`. -/
def Color.isHex (s : String) : Bool :=
  (hexScan s.data).isSome

/-- Greedy digit capture of `\d` repeated one to three times.  Because every
occurrence of the digit group in `RGB_REGEX` is followed by a non-digit
literal, the greedy capture is equivalent to the backtracking regex
semantics: giving back a digit would leave a digit in the position where
the literal is required. -/
def takeDigits : List Char → Nat → (List Char × List Char)
  | c :: rest, k + 1 =>
    if c.isDigit then
      let (ds, r) := takeDigits rest k
      (c :: ds, r)
    else ([], c :: rest)
  | l, _ => ([], l)

/-- Numeric value of a (non-empty) digit capture, as the JS string-to-number
coercion inside `Math.min` reads it. -/
def digitsToInt (l : List Char) : Int :=
  Int.ofNat (l.foldl (fun acc c => acc * 10 + (c.toNat - 48)) 0)

/-- Attempt of `RGB_REGEX` (src/Color.js line 7) at the head of the list:
`rgb\((\d1,3), (\d1,3), (\d1,3)\)` with the `i` flag. -/
def matchRgbAt (l : List Char) : Option (Int × Int × Int) :=
  match l with
  | a :: b :: c :: d :: rest =>
    if a.toLower = 'r' && b.toLower = 'g' && c.toLower = 'b' && d = '(' then
      let (d1, r1) := takeDigits rest 3
      if d1.isEmpty then none else
      match r1 with
      | ',' :: ' ' :: r2 =>
        let (d2, r3) := takeDigits r2 3
        if d2.isEmpty then none else
        match r3 with
        | ',' :: ' ' :: r4 =>
          let (d3, r5) := takeDigits r4 3
          if d3.isEmpty then none else
          match r5 with
          | ')' :: _ => some (digitsToInt d1, digitsToInt d2, digitsToInt d3)
          | _ => none
        | _ => none
      | _ => none
    else none
  | _ => none

/-- The unanchored search of `RGB_REGEX`: try every starting position. -/
def rgbScan : List Char → Option (Int × Int × Int)
  | [] => none
  | c :: rest =>
    match matchRgbAt (c :: rest) with
    | some v => some v
    | none => rgbScan rest

/-- Source `isRgb` (src/Color.js lines 160-162): `RGB_REGEX.test(rgb)`. -/
def Color.isRgb (s : String) : Bool :=
  (rgbScan s.data).isSome

/-- Source `String.prototype.toUpperCase` on the ASCII names of the dictionary. -/
def jsToUpper (s : String) : String :=
  s.map Char.toUpper

/-- Source dictionary `COLORS` (src/Color.js lines 215-466), transcribed
verbatim as an association list from uppercase name to hex string. -/
def COLORS : List (String × String) := [
    ("ALICE_BLUE", "#F0F8FF"),
    ("ANTIQUE_WHITE", "#FAEBD7"),
    ("AQUA", "#00FFFF"),
    ("AZURE", "#F0FFFF"),
    ("BEIGE", "#F5F5DC"),
    ("BISQUE", "#FFE4C4"),
    ("BLANCHED_ALMOND", "#FFEBCD"),
    ("BURLY_WOOD", "#DEB887"),
    ("CHARTREUSE", "#7FFF00"),
    ("CHOCOLATE", "#D2691E"),
    ("CORAL", "#FF7F50"),
    ("CORN_FLOWER_BLUE", "#6495ED"),
    ("CORN_SILK", "#FFF8DC"),
    ("CRIMSON", "#DC143C"),
    ("CYAN", "#00FFFF"),
    ("DARK_BLUE", "#00008B"),
    ("DARK_CYAN", "#008B8B"),
    ("DARK_GOLDEN_ROD", "#B8860B"),
    ("DARK_GRAY", "#A9A9A9"),
    ("DARK_GREEN", "#006400"),
    ("DARK_GREY", "#A9A9A9"),
    ("DARK_KHAKI", "#BDB76B"),
    ("DARK_MAGENTA", "#8B008B"),
    ("DARK_OLIVE_GREEN", "#556B2F"),
    ("DARK_ORANGE", "#FF8C00"),
    ("DARK_ORCHID", "#9932CC"),
    ("DARK_RED", "#8B0000"),
    ("DARK_SALMON", "#E9967A"),
    ("DARK_SEA_GREEN", "#8FBC8F"),
    ("DARK_SLATE_BLUE", "#483D8B"),
    ("DARK_SLATE_GRAY", "#2F4F4F"),
    ("DARK_SLATE_GREY", "#2F4F4F"),
    ("DARK_TURQUOISE", "#00CED1"),
    ("DARK_VIOLET", "#9400D3"),
    ("DEEP_PINK", "#FF1493"),
    ("DEEP_SKY_BLUE", "#00BFFF"),
    ("DIM_GRAY", "#696969"),
    ("DIM_GREY", "#696969"),
    ("DODGER_BLUE", "#1E90FF"),
    ("FIREBRICK", "#B22222"),
    ("FLORAL_WHITE", "#FFFAF0"),
    ("GAINS_BORO", "#DCDCDC"),
    ("GHOST_WHITE", "#F8F8FF"),
    ("GREY", "#808080"),
    ("HONEYDEW", "#F0FFF0"),
    ("HOT_PINK", "#FF69B4"),
    ("INDIAN_RED", "#CD5C5C"),
    ("IVORY", "#FFFFF0"),
    ("KHAKI", "#F0E68C"),
    ("LAVENDER_BLUSH", "#FFF0F5"),
    ("LAWN_GREEN", "#7CFC00"),
    ("LEMON_CHIFFON", "#FFFACD"),
    ("LIGHT_BLUE", "#ADD8E6"),
    ("LIGHT_CORAL", "#F08080"),
    ("LIGHT_CYAN", "#E0FFFF"),
    ("LIGHT_GOLDENROD_YELLOW", "#FAFAD2"),
    ("LIGHT_GRAY", "#D3D3D3"),
    ("LIGHT_GREEN", "#90EE90"),
    ("LIGHT_GREY", "#D3D3D3"),
    ("LIGHT_PINK", "#FFB6C1"),
    ("LIGHT_SALMON", "#FFA07A"),
    ("LIGHT_SEA_GREEN", "#20B2AA"),
    ("LIGHT_SKY_BLUE", "#87CEFA"),
    ("LIGHT_SLATE_GRAY", "#778899"),
    ("LIGHT_SLATE_GREY", "#778899"),
    ("LIGHT_STEEL_BLUE", "#B0C4DE"),
    ("LIGHT_YELLOW", "#FFFFE0"),
    ("LIME", "#00FF00"),
    ("LIME_GREEN", "#32CD32"),
    ("LINEN", "#FAF0E6"),
    ("MEDIUM_AQUAMARINE", "#66CDAA"),
    ("MEDIUM_BLUE", "#0000CD"),
    ("MEDIUM_ORCHID", "#BA55D3"),
    ("MEDIUM_PURPLE", "#9370DB"),
    ("MEDIUM_SEA_GREEN", "#3CB371"),
    ("MEDIUM_SLATE_BLUE", "#7B68EE"),
    ("MEDIUM_SPRING_GREEN", "#00FA9A"),
    ("MEDIUM_TURQUOISE", "#48D1CC"),
    ("MEDIUM_VIOLET_RED", "#C71585"),
    ("MINT_CREAM", "#F5FFFA"),
    ("MISTY_ROSE", "#FFE4E1"),
    ("MOCCASIN", "#FFE4B5"),
    ("NAVAJO_WHITE", "#FFDEAD"),
    ("NAVY", "#000080"),
    ("OLD_LACE", "#FDF5E6"),
    ("OLIVE", "#808000"),
    ("OLIVE_DRAB", "#6B8E23"),
    ("PALE_GOLDENROD", "#EEE8AA"),
    ("PALE_GREEN", "#98FB98"),
    ("PALE_TURQUOISE", "#AFEEEE"),
    ("PALE_VIOLET_RED", "#DB7093"),
    ("PAPAYA_WHIP", "#FFEFD5"),
    ("PEACH_PUFF", "#FFDAB9"),
    ("PERU", "#CD853F"),
    ("PINK", "#FFC0CB"),
    ("POWDER_BLUE", "#B0E0E6"),
    ("PURPLE", "#800080"),
    ("REBECCA_PURPLE", "#663399"),
    ("ROSY_BROWN", "#BC8F8F"),
    ("ROYAL_BLUE", "#4169E1"),
    ("SADDLE_BROWN", "#8B4513"),
    ("SANDY_BROWN", "#F4A460"),
    ("SEASHELL", "#FFF5EE"),
    ("SIENNA", "#A0522D"),
    ("SLATE_BLUE", "#6A5ACD"),
    ("SLATE_GRAY", "#708090"),
    ("SLATE_GREY", "#708090"),
    ("SNOW", "#FFFAFA"),
    ("STEEL_BLUE", "#4682B4"),
    ("TEAL", "#008080"),
    ("TOMATO", "#FF6347"),
    ("TURQUOISE", "#40E0D0"),
    ("VIOLET", "#EE82EE"),
    ("WHEAT", "#F5DEB3"),
    ("WHITE_SMOKE", "#F5F5F5"),
    ("ALMOND", "#EFDECD"),
    ("ANTIQUE_BRASS", "#CD9575"),
    ("APRICOT", "#FDD9B5"),
    ("AQUAMARINE", "#78DBE2"),
    ("ASPARAGUS", "#87A96B"),
    ("ATOMIC_TANGERINE", "#FFA474"),
    ("BANANA_MANIA", "#FAE7B5"),
    ("BEAVER", "#9F8170"),
    ("BITTERSWEET", "#FD7C6E"),
    ("BLACK", "#000000"),
    ("BLIZZARD_BLUE", "#ACE5EE"),
    ("BLUE", "#1F75FE"),
    ("BLUE_BELL", "#A2A2D0"),
    ("BLUE_GRAY", "#6699CC"),
    ("BLUE_GREEN", "#0D98BA"),
    ("BLUE_VIOLET", "#7366BD"),
    ("BLUSH", "#DE5D83"),
    ("BRICK_RED", "#CB4154"),
    ("BROWN", "#B4674D"),
    ("BURNT_ORANGE", "#FF7F49"),
    ("BURNT_SIENNA", "#EA7E5D"),
    ("CADET_BLUE", "#B0B7C6"),
    ("CANARY", "#FFFF99"),
    ("CARIBBEAN_GREEN", "#1CD3A2"),
    ("CARNATION_PINK", "#FFAACC"),
    ("CERISE", "#DD4492"),
    ("CERULEAN", "#1DACD6"),
    ("CHESTNUT", "#BC5D58"),
    ("COPPER", "#DD9475"),
    ("CORNFLOWER", "#9ACEEB"),
    ("COTTON_CANDY", "#FFBCD9"),
    ("DANDELION", "#FDDB6D"),
    ("DENIM", "#2B6CC4"),
    ("DESERT_SAND", "#EFCDB8"),
    ("EGGPLANT", "#6E5160"),
    ("ELECTRIC_LIME", "#CEFF1D"),
    ("FERN", "#71BC78"),
    ("FOREST_GREEN", "#6DAE81"),
    ("FUCHSIA", "#C364C5"),
    ("FUZZY_WUZZY", "#CC6666"),
    ("GOLD", "#E7C697"),
    ("GOLDENROD", "#FCD975"),
    ("GRANNY_SMITH_APPLE", "#A8E4A0"),
    ("GRAY", "#95918C"),
    ("GREEN", "#1CAC78"),
    ("GREEN_BLUE", "#1164B4"),
    ("GREEN_YELLOW", "#F0E891"),
    ("HOT_MAGENTA", "#FF1DCE"),
    ("INCHWORM", "#B2EC5D"),
    ("INDIGO", "#5D76CB"),
    ("JAZZBERRY_JAM", "#CA3767"),
    ("JUNGLE_GREEN", "#3BB08F"),
    ("LASER_LEMON", "#FEFE22"),
    ("LAVENDER", "#FCB4D5"),
    ("LEMON_YELLOW", "#FFF44F"),
    ("MACARONI_AND_CHEESE", "#FFBD88"),
    ("MAGENTA", "#F664AF"),
    ("MAGIC_MINT", "#AAF0D1"),
    ("MAHOGANY", "#CD4A4C"),
    ("MAIZE", "#EDD19C"),
    ("MANATEE", "#979AAA"),
    ("MANGO_TANGO", "#FF8243"),
    ("MAROON", "#C8385A"),
    ("MAUVELOUS", "#EF98AA"),
    ("MELON", "#FDBCB4"),
    ("MIDNIGHT_BLUE", "#1A4876"),
    ("MOUNTAIN_MEADOW", "#30BA8F"),
    ("MULBERRY", "#C54B8C"),
    ("NAVY_BLUE", "#1974D2"),
    ("NEON_CARROT", "#FFA343"),
    ("OLIVE_GREEN", "#BAB86C"),
    ("ORANGE", "#FF7538"),
    ("ORANGE_RED", "#FF2B2B"),
    ("ORANGE_YELLOW", "#F8D568"),
    ("ORCHID", "#E6A8D7"),
    ("OUTER_SPACE", "#414A4C"),
    ("OUTRAGEOUS_ORANGE", "#FF6E4A"),
    ("PACIFIC_BLUE", "#1CA9C9"),
    ("PEACH", "#FFCFAB"),
    ("PERIWINKLE", "#C5D0E6"),
    ("PIGGY_PINK", "#FDDDE6"),
    ("PINE_GREEN", "#158078"),
    ("PINK_FLAMINGO", "#FC74FD"),
    ("PINK_SHERBET", "#F78FA7"),
    ("PLUM", "#8E4585"),
    ("PURPLE_HEART", "#7442C8"),
    ("PURPLE_MOUNTAINS_MAJESTY", "#9D81BA"),
    ("PURPLE_PIZZAZZ", "#FE4EDA"),
    ("RADICAL_RED", "#FF496C"),
    ("RAW_SIENNA", "#D68A59"),
    ("RAW_UMBER", "#714B23"),
    ("RAZZLE_DAZZLE_ROSE", "#FF48D0"),
    ("RAZZMATAZZ", "#E3256B"),
    ("RED", "#EE204D"),
    ("RED_ORANGE", "#FF5349"),
    ("RED_VIOLET", "#C0448F"),
    ("ROBINS_EGG_BLUE", "#1FCECB"),
    ("ROYAL_PURPLE", "#7851A9"),
    ("SALMON", "#FF9BAA"),
    ("SCARLET", "#FC2847"),
    ("SCREAMING_GREEN", "#76FF7A"),
    ("SEA_GREEN", "#9FE2BF"),
    ("SEPIA", "#A5694F"),
    ("SHADOW", "#8A795D"),
    ("SHAMROCK", "#45CEA2"),
    ("SHOCKING_PINK", "#FB7EFD"),
    ("SILVER", "#CDC5C2"),
    ("SKY_BLUE", "#80DAEB"),
    ("SPRING_GREEN", "#ECEABE"),
    ("SUNGLOW", "#FFCF48"),
    ("SUNSET_ORANGE", "#FD5E53"),
    ("TAN", "#FAA76C"),
    ("TEAL_BLUE", "#18A7B5"),
    ("THISTLE", "#EBC7DF"),
    ("TICKLE_ME_PINK", "#FC89AC"),
    ("TIMBERWOLF", "#DBD7D2"),
    ("TROPICAL_RAIN_FOREST", "#17806D"),
    ("TUMBLEWEED", "#DEAA88"),
    ("TURQUOISE_BLUE", "#77DDE7"),
    ("UNMELLOW_YELLOW", "#FFFF66"),
    ("VIOLET_PURPLE", "#926EAE"),
    ("VIOLET_BLUE", "#324AB2"),
    ("VIOLET_RED", "#F75394"),
    ("VIVID_TANGERINE", "#FFA089"),
    ("VIVID_VIOLET", "#8F509D"),
    ("WHITE", "#FFFFFF"),
    ("WILD_BLUE_YONDER", "#A2ADD0"),
    ("WILD_STRAWBERRY", "#FF43A4"),
    ("WILD_WATERMELON", "#FC6C85"),
    ("WISTERIA", "#CDA4DE"),
    ("YELLOW", "#FCE883"),
    ("YELLOW_GREEN", "#C5E384"),
    ("YELLOW_ORANGE", "#FFAE42")
  ]

/-- Source `isNamed` (src/Color.js lines 149-151): a string whose uppercase
form is a key of the dictionary (every dictionary value is a non-empty
string, hence truthy). -/
def Color.isNamed (s : String) : Bool :=
  (COLORS.lookup (jsToUpper s)).isSome

/-- The inputs `Color.create` is exercised with by the claims: a JS string,
a plain object carrying own properties `r`, `g`, `b` (each `none` when the
property is absent), or a boolean primitive (the value the Cursor
constructor passes).  A boxed boolean has no own `r`, `g`, `b` properties
and stringifies to a text none of the regexes match. -/
inductive ColorInput where
  | str (s : String)
  | obj (r g b : Option Int)
  | boolVal (b : Bool)
deriving DecidableEq, Repr

/-- The object branch of the `Color` constructor (src/Color.js lines
45-61): throw unless at least one of the own properties `r`, `g`, `b`
exists; otherwise initialise the channels to zero and run the three
clamping setters on the (possibly absent, i.e. `NaN`-producing)
property values. -/
def colorFromObj (r g b : Option Int) : Except String Color :=
  if r.isSome || g.isSome || b.isSome then
    .ok ((((Color.mk (some 0) (some 0) (some 0)).setR r).setG g).setB b)
  else
    .error "ColorParseError"

/-- Source `fromHex` (src/Color.js lines 194-197): match `HEX_REGEX`,
`parseInt` each capture with radix 16, and re-enter `create` with the
object form.  When the regex does not match, `hex.match` returns `null`
and the destructuring throws a TypeError. -/
def fromHexColor (s : String) : Except String Color :=
  match hexScan s.data with
  | some (a, b, c) =>
    colorFromObj (some (Int.ofNat (parseHex2 a))) (some (Int.ofNat (parseHex2 b)))
      (some (Int.ofNat (parseHex2 c)))
  | none => .error "TypeError"

/-- Source `fromRgb` (src/Color.js lines 182-185): match `RGB_REGEX` and
re-enter `create` with the object form (the captured digit strings coerce
to numbers inside the clamping setters). -/
def fromRgbColor (s : String) : Except String Color :=
  match rgbScan s.data with
  | some (a, b, c) => colorFromObj (some a) (some b) (some c)
  | none => .error "TypeError"

/-- Source `Color.create` / the `Color` constructor (src/Color.js lines
41-61): named dictionary lookup first, then the rgb-string form, then the
hex-string form, then the object form; a value with none of the own
properties `r`, `g`, `b` throws the parse error. -/
def colorCreate : ColorInput → Except String Color
  | .str s =>
    if Color.isNamed s then
      fromHexColor ((COLORS.lookup (jsToUpper s)).getD "")
    else if Color.isRgb s then fromRgbColor s
    else if Color.isHex s then fromHexColor s
    else .error "ColorParseError"
  | .obj r g b => colorFromObj r g b
  | .boolVal _ => .error "ColorParseError"

/-! ## Cursor (src/Cursor.js) -/

/-- The state of a `Cursor` (src/Cursor.js).  The fields `_width` and
`_height` are read throughout src/Cursor.js but never assigned there;
per spec section 6 they are supplied by the external buffer-dimensions
provider, so they appear here as plain state fields (modelled from the
spec in that respect).  The field `_terminal` is the externally supplied
flat grid of `width * height` optional cells, modelled as a function so
that reading a hole or an out-of-range index yields `none`, exactly as a
JS array read yields `undefined`.  The field `_lastFrame` is the frame
snapshot: a JS `Set` of strings, modelled as a list queried through
membership (`new Set` built over a holey array additionally contains
`undefined`, which no string lookup can ever hit, so it is dropped). -/
structure CursorState where
  width : Nat
  height : Nat
  terminal : Int → Option Cell
  x : Int
  y : Int
  background : Rgb
  foreground : Rgb
  display : Display
  lastFrame : List String

/-- Source `getPointerFromXY` (src/Cursor.js lines 132-134):
`y * this._width + x`. -/
def CursorState.getPointerFromXY (st : CursorState) (x y : Int) : Int :=
  y * (st.width : Int) + x

/-- Source `getXYFromPointer` (src/Cursor.js lines 142-144):
`[index - (Math.floor(index / this._width) * this._width),
Math.floor(index / this._width)]`.  For a positive divisor,
`Math.floor` of the real quotient is integer floor division. -/
def CursorState.getXYFromPointer (st : CursorState) (i : Int) : Int × Int :=
  (i - (Int.fdiv i (st.width : Int)) * (st.width : Int),
    Int.fdiv i (st.width : Int))

/-- The per-character body of `write` (src/Cursor.js lines 97-106), with
the pen snapshot taken at call entry passed in: compute the pointer from
the current position, store a fresh `Cell` there when the position is in
bounds, and advance `x` by one in every case. -/
def writeChar (bg fg : Rgb) (disp : Display) (st : CursorState) (ch : Char) :
    CursorState :=
  let pointer := st.getPointerFromXY st.x st.y
  let st1 :=
    if 0 ≤ st.x ∧ st.x < (st.width : Int) ∧ 0 ≤ st.y ∧ st.y < (st.height : Int) then
      { st with terminal := fun i =>
          if i = pointer then some (Cell.mk ch st.x st.y bg fg disp)
          else st.terminal i }
    else st
  { st1 with x := st1.x + 1 }

/-- Source `write` (src/Cursor.js lines 92-109): snapshot the pen once at
entry (`const background = this._background;` and friends), then fold the
per-character body over `data.split('')`. -/
def write (st : CursorState) (data : List Char) : CursorState :=
  data.foldl (writeChar st.background st.foreground st.display) st

/-- Source `setX` (src/Cursor.js lines 44-47); the claims exercise integer
arguments, on which `Math.floor` is the identity. -/
def CursorState.setX (st : CursorState) (x : Int) : CursorState :=
  { st with x := x }

/-- Source `setY` (src/Cursor.js lines 53-55). -/
def CursorState.setY (st : CursorState) (y : Int) : CursorState :=
  { st with y := y }

/-- Source `up` (src/Cursor.js lines 152-155). -/
def CursorState.up (st : CursorState) (n : Int) : CursorState :=
  { st with y := st.y - n }

/-- Source `down` (src/Cursor.js lines 163-166). -/
def CursorState.down (st : CursorState) (n : Int) : CursorState :=
  { st with y := st.y + n }

/-- Source `right` (src/Cursor.js lines 174-177). -/
def CursorState.right (st : CursorState) (n : Int) : CursorState :=
  { st with x := st.x + n }

/-- Source `left` (src/Cursor.js lines 185-188). -/
def CursorState.left (st : CursorState) (n : Int) : CursorState :=
  { st with x := st.x - n }

/-- Source `moveBy` (src/Cursor.js lines 197-205): negative horizontal
offset goes through `left`, positive through `right`, then vertically
through `up` or `down`. -/
def CursorState.moveBy (st : CursorState) (dx dy : Int) : CursorState :=
  let st1 := if dx < 0 then st.left (-dx) else st
  let st2 := if dx > 0 then st1.right dx else st1
  let st3 := if dy < 0 then st2.up (-dy) else st2
  if dy > 0 then st3.down dy else st3

/-- Source `moveTo` (src/Cursor.js lines 214-219). -/
def CursorState.moveTo (st : CursorState) (x y : Int) : CursorState :=
  { st with x := x, y := y }

/-- Integer closed interval as a list, the values a JS
`for (let v = a; v <= b; v++)` loop visits. -/
def intRange (a b : Int) : List Int :=
  (List.range (b + 1 - a).toNat).map (fun k => a + (k : Int))

/-- The positions the nested loops of `erase` (src/Cursor.js lines
322-326) visit, in order: `y` in the outer loop, `x` in the inner one. -/
def rectList (x1 y1 x2 y2 : Int) : List (Int × Int) :=
  (intRange y1 y2).flatMap (fun y => (intRange x1 x2).map (fun x => (x, y)))

/-- The body of `erase` as a loop over the visited positions:
`this._terminal[this.getPointerFromXY(x, y)].setChar(' ')`.  Reading a
missing slot yields `undefined`, and the `.setChar` access then throws:
the error payload is the grid at the moment the exception propagates. -/
def eraseLoop (w : Nat) :
    (Int → Option Cell) → List (Int × Int) →
      Except (Int → Option Cell) (Int → Option Cell)
  | t, [] => .ok t
  | t, p :: ps =>
    match t (p.2 * (w : Int) + p.1) with
    | none => .error t
    | some c =>
      eraseLoop w
        (fun j => if j = p.2 * (w : Int) + p.1 then some (c.setChar ' ') else t j)
        ps

/-- Source `erase` (src/Cursor.js lines 321-329). -/
def CursorState.erase (st : CursorState) (x1 y1 x2 y2 : Int) :
    Except CursorState CursorState :=
  match eraseLoop st.width st.terminal (rectList x1 y1 x2 y2) with
  | .ok t => .ok { st with terminal := t }
  | .error t => .error { st with terminal := t }

/-- The currently-stored cells in row-major slot order: what
`this._terminal.filter(...)` and `this._terminal.map(...)` iterate over
(both skip holes; the grid array has length `width * height`). -/
def storedCells (st : CursorState) : List Cell :=
  (List.range (st.width * st.height)).filterMap
    (fun i => st.terminal (Int.ofNat i))

/-- Source `flush` (src/Cursor.js lines 118-123): emit, in one write to
the sink, the concatenated encodings of the stored cells whose encoding
the retained snapshot does not contain, then replace the snapshot with
the encodings of all stored cells.  The second component is the single
string handed to `process.stdout.write`. -/
def flush (st : CursorState) : CursorState × String :=
  (({ st with lastFrame := (storedCells st).map Cell.encode } : CursorState),
    String.join (((storedCells st).filter
      (fun c => !(st.lastFrame.contains c.encode))).map Cell.encode))

/-- Source `Cursor` constructor (src/Cursor.js lines 22-29):
`setTerminal(terminal); setX(0); setY(0); setBackground(false);
setForeground(false); setDisplay(false)`.  `setBackground` runs
`Color.create(false).toRgb()`, and `Color.create(false)` throws its parse
error, so the later steps are unreachable; the values supplied in the
unreachable success branch are the defaults the spec prescribes.  Note
also that no branch ever assigns `_lastFrame`. -/
def cursorConstruct (width height : Nat) (terminal : Int → Option Cell) :
    Except String CursorState :=
  match colorCreate (.boolVal false) with
  | .error e => .error e
  | .ok cb =>
    match colorCreate (.boolVal false) with
    | .error e => .error e
    | .ok cf =>
      .ok { width := width, height := height, terminal := terminal,
            x := 0, y := 0,
            background := cb.toRgb, foreground := cf.toRgb,
            display := ⟨false, false, false, false, false, false⟩,
            lastFrame := [] }

/-! ## Theorems -/

/-- C8: for every numeric channel input, the channel setters `setR`,
`setG`, `setB` store the value clamped to the nearest boundary of
`[0, 255]` -- negative inputs become 0, inputs above 255 become 255 --
never raise an error (they are total functions of the model), and store
in-range inputs unchanged. -/
theorem c8_setters_clamp (c : Color) (v : Int) :
    ((c.setR (some v)).r = some (clampChannel v) ∧
      (c.setG (some v)).g = some (clampChannel v) ∧
      (c.setB (some v)).b = some (clampChannel v)) ∧
    (v < 0 → (c.setR (some v)).r = some 0 ∧ (c.setG (some v)).g = some 0 ∧
      (c.setB (some v)).b = some 0) ∧
    (255 < v → (c.setR (some v)).r = some 255 ∧
      (c.setG (some v)).g = some 255 ∧ (c.setB (some v)).b = some 255) ∧
    (0 ≤ v → v ≤ 255 → (c.setR (some v)).r = some v ∧
      (c.setG (some v)).g = some v ∧ (c.setB (some v)).b = some v) := by
  refine ⟨⟨rfl, rfl, rfl⟩, fun h => ?_, fun h => ?_, fun h1 h2 => ?_⟩ <;>
    refine ⟨?_, ?_, ?_⟩ <;>
      simp only [Color.setR, Color.setG, Color.setB, Option.map_some',
        clampChannel, Option.some.injEq] <;> omega

/-- Witness for C8 at concrete inputs. -/
theorem c8_setters_clamp_witness :
    (((-5 : Int) < 0 ∧ (255 : Int) < 300 ∧ (0 : Int) ≤ 7 ∧ (7 : Int) ≤ 255) ∧
      ((Color.mk (some 1) (some 2) (some 3)).setR (some (-5))).r = some 0) ∧
    ((Color.mk (some 1) (some 2) (some 3)).setG (some 300)).g = some 255 ∧
    ((Color.mk (some 1) (some 2) (some 3)).setB (some 7)).b = some 7 := by
  refine ⟨⟨by decide, ?_⟩, ?_, ?_⟩
  · exact ((c8_setters_clamp (Color.mk (some 1) (some 2) (some 3)) (-5)).2.1
      (by decide)).1
  · exact ((c8_setters_clamp (Color.mk (some 1) (some 2) (some 3)) 300).2.2.1
      (by decide)).2.1
  · exact ((c8_setters_clamp (Color.mk (some 1) (some 2) (some 3)) 7).2.2.2
      (by decide) (by decide)).2.2

/-- C9: on the in-bounds grid the coordinate helpers are exact inverses:
`getXYFromPointer (getPointerFromXY x y) = (x, y)` for `0 ≤ x < width`,
`0 ≤ y < height`, and `getPointerFromXY` applied to the components of
`getXYFromPointer i` returns `i` for `0 ≤ i < width * height`. -/
theorem c9_pointer_roundtrip (st : CursorState) (x y i : Int)
    (hx0 : 0 ≤ x) (hxw : x < (st.width : Int))
    (hy0 : 0 ≤ y) (hyh : y < (st.height : Int))
    (hi0 : 0 ≤ i) (hiwh : i < (st.width : Int) * (st.height : Int)) :
    st.getXYFromPointer (st.getPointerFromXY x y) = (x, y) ∧
    st.getPointerFromXY (st.getXYFromPointer i).1 (st.getXYFromPointer i).2
      = i := by
  have hw : (st.width : Int) ≠ 0 := by omega
  constructor
  · unfold CursorState.getXYFromPointer CursorState.getPointerFromXY
    rw [Int.fdiv_eq_ediv _ (by omega)]
    have hdiv : (y * (st.width : Int) + x) / (st.width : Int) = y := by
      rw [add_comm, Int.add_mul_ediv_right _ _ hw,
        Int.ediv_eq_zero_of_lt hx0 hxw]
      ring
    rw [hdiv]
    simp only [Prod.mk.injEq]
    refine ⟨by omega, trivial⟩
  · unfold CursorState.getXYFromPointer CursorState.getPointerFromXY
    dsimp only
    omega

/-- Witness for C9 on a concrete 4-by-3 grid. -/
theorem c9_pointer_roundtrip_witness :
    (((0 : Int) ≤ 3 ∧ (3 : Int) < (4 : Nat) ∧ (0 : Int) ≤ 2 ∧
        (2 : Int) < (3 : Nat) ∧ (0 : Int) ≤ 7 ∧
        (7 : Int) < ((4 : Nat) : Int) * ((3 : Nat) : Int)) ∧
      (CursorState.mk 4 3 (fun _ => none) 0 0 ⟨none, none, none⟩
          ⟨none, none, none⟩ ⟨false, false, false, false, false, false⟩
          []).getXYFromPointer
        ((CursorState.mk 4 3 (fun _ => none) 0 0 ⟨none, none, none⟩
          ⟨none, none, none⟩ ⟨false, false, false, false, false, false⟩
          []).getPointerFromXY 3 2) = (3, 2)) ∧
    (CursorState.mk 4 3 (fun _ => none) 0 0 ⟨none, none, none⟩
        ⟨none, none, none⟩ ⟨false, false, false, false, false, false⟩
        []).getPointerFromXY
      ((CursorState.mk 4 3 (fun _ => none) 0 0 ⟨none, none, none⟩
        ⟨none, none, none⟩ ⟨false, false, false, false, false, false⟩
        []).getXYFromPointer 7).1
      ((CursorState.mk 4 3 (fun _ => none) 0 0 ⟨none, none, none⟩
        ⟨none, none, none⟩ ⟨false, false, false, false, false, false⟩
        []).getXYFromPointer 7).2 = 7 := by
  refine ⟨⟨by norm_num, ?_⟩, ?_⟩
  · exact (c9_pointer_roundtrip _ 3 2 7 (by norm_num) (by norm_num)
      (by norm_num) (by norm_num) (by norm_num) (by norm_num)).1
  · exact (c9_pointer_roundtrip _ 3 2 7 (by norm_num) (by norm_num)
      (by norm_num) (by norm_num) (by norm_num) (by norm_num)).2

/-- Every value below 16 is faithfully rendered by `hexDigit` and read
back by `hexVal`, and the rendered character is in the regex character
class. -/
theorem hexDigit_spec : ∀ k < 16,
    hexVal (hexDigit k) = k ∧ isHexDigitJS (hexDigit k) = true := by decide

/-- For a byte value, the padded JS hex rendering is exactly the two
digits of the base-16 expansion. -/
theorem pad2_jsHexByte (n : Nat) (h : n < 256) :
    pad2 (jsHexByte n) = [hexDigit (n / 16), hexDigit (n % 16)] := by
  unfold jsHexByte pad2
  by_cases h16 : n < 16
  · simp only [h16, if_true, List.length_singleton, if_pos rfl]
    rw [Nat.div_eq_of_lt h16, Nat.mod_eq_of_lt h16]
    rfl
  · simp [h16]

/-- Creating a color from an in-range integer triple stores the triple
unchanged. -/
theorem colorCreate_obj_in_range (r g b : Int)
    (hr0 : 0 ≤ r) (hr : r ≤ 255) (hg0 : 0 ≤ g) (hg : g ≤ 255)
    (hb0 : 0 ≤ b) (hb : b ≤ 255) :
    colorCreate (.obj (some r) (some g) (some b)) =
      .ok (Color.mk (some r) (some g) (some b)) := by
  simp only [colorCreate, colorFromObj, Option.isSome_some, Bool.true_or,
    if_true, Color.setR, Color.setG, Color.setB, Option.map_some',
    clampChannel, Except.ok.injEq, Color.mk.injEq, Option.some.injEq]
  refine ⟨by omega, by omega, by omega⟩

/-- C7: for all integer channels in `[0, 255]`, constructing a Color from
the triple, serialising with `toHex`, and parsing the string back through
the hex constructor yields a Color whose `toRgb` is the identical
triple. -/
theorem c7_hex_roundtrip (r g b : Int)
    (hr0 : 0 ≤ r) (hr : r ≤ 255) (hg0 : 0 ≤ g) (hg : g ≤ 255)
    (hb0 : 0 ≤ b) (hb : b ≤ 255) :
    ∃ c c2 : Color,
      colorCreate (.obj (some r) (some g) (some b)) = .ok c ∧
      fromHexColor c.toHex = .ok c2 ∧
      c2.toRgb = ⟨some r, some g, some b⟩ := by
  refine ⟨Color.mk (some r) (some g) (some b), Color.mk (some r) (some g) (some b),
    colorCreate_obj_in_range r g b hr0 hr hg0 hg hb0 hb, ?_, rfl⟩
  have hrn : r.toNat < 256 := by omega
  have hgn : g.toNat < 256 := by omega
  have hbn : b.toNat < 256 := by omega
  have ehex : (Color.mk (some r) (some g) (some b)).toHex =
      String.mk ['#', hexDigit (r.toNat / 16), hexDigit (r.toNat % 16),
        hexDigit (g.toNat / 16), hexDigit (g.toNat % 16),
        hexDigit (b.toNat / 16), hexDigit (b.toNat % 16)] := by
    unfold Color.toHex Color.getR Color.getG Color.getB
    rw [show hexOfChannel (some r) = jsHexByte r.toNat from rfl,
      show hexOfChannel (some g) = jsHexByte g.toNat from rfl,
      show hexOfChannel (some b) = jsHexByte b.toNat from rfl,
      pad2_jsHexByte r.toNat hrn, pad2_jsHexByte g.toNat hgn,
      pad2_jsHexByte b.toNat hbn]
    rfl
  rw [ehex]
  have hscan : hexScan ['#', hexDigit (r.toNat / 16), hexDigit (r.toNat % 16),
      hexDigit (g.toNat / 16), hexDigit (g.toNat % 16),
      hexDigit (b.toNat / 16), hexDigit (b.toNat % 16)] =
      some ([hexDigit (r.toNat / 16), hexDigit (r.toNat % 16)],
        [hexDigit (g.toNat / 16), hexDigit (g.toNat % 16)],
        [hexDigit (b.toNat / 16), hexDigit (b.toNat % 16)]) := by
    unfold hexScan
    simp only [if_pos rfl,
      (hexDigit_spec (r.toNat / 16) (by omega)).2,
      (hexDigit_spec (r.toNat % 16) (by omega)).2,
      (hexDigit_spec (g.toNat / 16) (by omega)).2,
      (hexDigit_spec (g.toNat % 16) (by omega)).2,
      (hexDigit_spec (b.toNat / 16) (by omega)).2,
      (hexDigit_spec (b.toNat % 16) (by omega)).2,
      Bool.and_self, if_true]
  have hparse : ∀ n : Nat, n < 256 →
      parseHex2 [hexDigit (n / 16), hexDigit (n % 16)] = n := by
    intro n hn
    show hexVal (hexDigit (n / 16)) * 16 + hexVal (hexDigit (n % 16)) = n
    rw [(hexDigit_spec (n / 16) (by omega)).1, (hexDigit_spec (n % 16) (by omega)).1]
    omega
  unfold fromHexColor
  rw [show (String.mk ['#', hexDigit (r.toNat / 16), hexDigit (r.toNat % 16),
      hexDigit (g.toNat / 16), hexDigit (g.toNat % 16),
      hexDigit (b.toNat / 16), hexDigit (b.toNat % 16)]).data =
      ['#', hexDigit (r.toNat / 16), hexDigit (r.toNat % 16),
      hexDigit (g.toNat / 16), hexDigit (g.toNat % 16),
      hexDigit (b.toNat / 16), hexDigit (b.toNat % 16)] from rfl, hscan]
  dsimp only
  rw [hparse r.toNat hrn, hparse g.toNat hgn, hparse b.toNat hbn]
  rw [show Int.ofNat r.toNat = (r.toNat : Int) from rfl,
    show Int.ofNat g.toNat = (g.toNat : Int) from rfl,
    show Int.ofNat b.toNat = (b.toNat : Int) from rfl,
    Int.toNat_of_nonneg hr0, Int.toNat_of_nonneg hg0, Int.toNat_of_nonneg hb0]
  simp only [colorFromObj, Option.isSome_some, Bool.true_or, if_true,
    Color.setR, Color.setG, Color.setB, Option.map_some', clampChannel,
    Except.ok.injEq, Color.mk.injEq, Option.some.injEq]
  refine ⟨by omega, by omega, by omega⟩

/-- Witness for C7 at the concrete triple (171, 0, 255). -/
theorem c7_hex_roundtrip_witness :
    ((0 : Int) ≤ 171 ∧ (171 : Int) ≤ 255 ∧ (0 : Int) ≤ 0 ∧ (0 : Int) ≤ 255 ∧
      (0 : Int) ≤ 255 ∧ (255 : Int) ≤ 255) ∧
    ∃ c c2 : Color,
      colorCreate (.obj (some 171) (some 0) (some 255)) = .ok c ∧
      fromHexColor c.toHex = .ok c2 ∧
      c2.toRgb = ⟨some 171, some 0, some 255⟩ := by
  exact ⟨by norm_num, c7_hex_roundtrip 171 0 255 (by norm_num) (by norm_num)
    (by norm_num) (by norm_num) (by norm_num) (by norm_num)⟩

/-- A successful association-list lookup returns one of the stored
values. -/
theorem lookup_snd_mem {α β : Type _} [BEq α] (l : List (α × β)) (k : α)
    (v : β) (h : l.lookup k = some v) : v ∈ l.map Prod.snd := by
  induction l with
  | nil => simp [List.lookup] at h
  | cons e es ih =>
    obtain ⟨a, b⟩ := e
    simp only [List.lookup] at h
    cases hk : (k == a) with
    | true =>
      rw [hk] at h
      simp only [Option.some.injEq] at h
      subst h
      exact List.mem_map_of_mem Prod.snd (List.mem_cons_self _ _)
    | false =>
      rw [hk] at h
      exact List.mem_cons_of_mem _ (ih h)

set_option maxRecDepth 40000 in
/-- Every value of the `COLORS` dictionary is matched by the hex regex. -/
theorem colorsTableHex :
    (COLORS.map Prod.snd).all (fun v => (hexScan v.data).isSome) = true := by
  decide

/-- The object constructor branch succeeds whenever some channel property
is present. -/
theorem colorFromObj_ok (r g b : Option Int)
    (h : (r.isSome || g.isSome || b.isSome) = true) :
    ∃ c, colorFromObj r g b = .ok c := by
  unfold colorFromObj
  rw [if_pos h]
  exact ⟨_, rfl⟩

/-- The hex path succeeds exactly on strings the hex regex matches. -/
theorem fromHexColor_ok (s : String) (h : Color.isHex s = true) :
    ∃ c, fromHexColor s = .ok c := by
  unfold Color.isHex at h
  obtain ⟨⟨a, b, c⟩, hs⟩ := Option.isSome_iff_exists.mp h
  unfold fromHexColor
  rw [hs]
  exact colorFromObj_ok _ _ _ (by simp)

/-- The rgb path succeeds exactly on strings the rgb regex matches. -/
theorem fromRgbColor_ok (s : String) (h : Color.isRgb s = true) :
    ∃ c, fromRgbColor s = .ok c := by
  unfold Color.isRgb at h
  obtain ⟨⟨a, b, c⟩, hs⟩ := Option.isSome_iff_exists.mp h
  unfold fromRgbColor
  rw [hs]
  exact colorFromObj_ok _ _ _ (by simp)

/-- The named path always succeeds: the dictionary value reaches
`fromHex` and every dictionary value is matched by the hex regex. -/
theorem namedColor_ok (s : String) (h : Color.isNamed s = true) :
    ∃ c, fromHexColor ((COLORS.lookup (jsToUpper s)).getD "") = .ok c := by
  unfold Color.isNamed at h
  obtain ⟨v, hv⟩ := Option.isSome_iff_exists.mp h
  rw [hv, Option.getD_some]
  apply fromHexColor_ok
  unfold Color.isHex
  exact (List.all_eq_true.mp colorsTableHex) v (lookup_snd_mem _ _ _ hv)

/-- C6 counterexample: an object exposing only the property `r` (no `g`,
no `b`) is accepted by `Color.create` -- the constructor throws only when
all three properties are absent -- while the claim as stated requires a
`ColorParseError` for any object not exposing all three channels.  The
missing channels are stored as `NaN` (`none`), not signalled. -/
theorem c6_object_with_only_r_accepted :
    colorCreate (.obj (some 0) none none) = .ok (Color.mk (some 0) none none) := by
  rfl

/-- C6 (amended): `Color.create` succeeds exactly when the input is a
case-insensitive dictionary name, a string the unanchored rgb regex
matches somewhere, a string the unanchored hex regex matches somewhere,
or an object exposing at least one of the own properties `r`, `g`, `b`;
every other input fails with the parse error.  (The claim as stated
requires all three object properties and exact textual forms; the code
accepts any non-empty subset of the properties and any string containing
a regex match.) -/
theorem c6_create_succeeds_iff (inp : ColorInput) :
    (∃ c, colorCreate inp = .ok c) ↔
      (match inp with
       | .str s => Color.isNamed s = true ∨ Color.isRgb s = true ∨
           Color.isHex s = true
       | .obj r g b => r.isSome = true ∨ g.isSome = true ∨ b.isSome = true
       | .boolVal _ => False) := by
  cases inp with
  | str s =>
    show (∃ c, colorCreate (.str s) = .ok c) ↔
      (Color.isNamed s = true ∨ Color.isRgb s = true ∨ Color.isHex s = true)
    constructor
    · intro ⟨c, hc⟩
      by_cases h1 : Color.isNamed s = true
      · exact Or.inl h1
      by_cases h2 : Color.isRgb s = true
      · exact Or.inr (Or.inl h2)
      by_cases h3 : Color.isHex s = true
      · exact Or.inr (Or.inr h3)
      · simp only [colorCreate, if_neg h1, if_neg h2, if_neg h3] at hc
        exact absurd hc (by simp)
    · intro h
      simp only [colorCreate]
      by_cases h1 : Color.isNamed s = true
      · rw [if_pos h1]
        exact namedColor_ok s h1
      rw [if_neg h1]
      by_cases h2 : Color.isRgb s = true
      · rw [if_pos h2]
        exact fromRgbColor_ok s h2
      rw [if_neg h2]
      by_cases h3 : Color.isHex s = true
      · rw [if_pos h3]
        exact fromHexColor_ok s h3
      · exact absurd h (by simp [h1, h2, h3])
  | obj r g b =>
    show (∃ c, colorCreate (.obj r g b) = .ok c) ↔
      (r.isSome = true ∨ g.isSome = true ∨ b.isSome = true)
    constructor
    · intro ⟨c, hc⟩
      simp only [colorCreate, colorFromObj] at hc
      by_cases h : (r.isSome || g.isSome || b.isSome) = true
      · rw [Bool.or_eq_true, Bool.or_eq_true] at h
        tauto
      · rw [if_neg h] at hc
        exact absurd hc (by simp)
    · intro h
      have hb : (r.isSome || g.isSome || b.isSome) = true := by
        rcases h with h | h | h <;> simp [h]
      exact colorFromObj_ok r g b hb
  | boolVal b =>
    show (∃ c, colorCreate (.boolVal b) = .ok c) ↔ False
    simp [colorCreate]

/-- C5 (code evaluation at the failing input): the `Cursor` constructor
never succeeds.  `setBackground(false)` runs `Color.create(false).toRgb()`
and `Color.create(false)` throws the parse error, for every terminal
argument and every grid dimensions; no cursor with the claimed initial
state (position `(0, 0)`, unset pen, empty frame snapshot) is ever
produced.  Independently, no constructor branch ever assigns
`_lastFrame`, so the snapshot would not start as an empty set even if
construction returned. -/
theorem c5_constructor_throws (width height : Nat)
    (terminal : Int → Option Cell) :
    cursorConstruct width height terminal = .error "ColorParseError" := rfl

/-- The per-character write body changes no field except the grid and the
horizontal position, which always advances by one. -/
theorem writeChar_fields (bg fg : Rgb) (disp : Display) (st : CursorState)
    (ch : Char) :
    (writeChar bg fg disp st ch).x = st.x + 1 ∧
    (writeChar bg fg disp st ch).y = st.y ∧
    (writeChar bg fg disp st ch).width = st.width ∧
    (writeChar bg fg disp st ch).height = st.height ∧
    (writeChar bg fg disp st ch).background = st.background ∧
    (writeChar bg fg disp st ch).foreground = st.foreground ∧
    (writeChar bg fg disp st ch).display = st.display ∧
    (writeChar bg fg disp st ch).lastFrame = st.lastFrame := by
  unfold writeChar
  dsimp only
  split <;> simp

/-- Grid effect of the per-character write body: the slot at the pointer
of the current position receives a fresh cell exactly when the position is
in bounds; every other slot keeps its value. -/
theorem writeChar_terminal (bg fg : Rgb) (disp : Display) (st : CursorState)
    (ch : Char) (j : Int) :
    (writeChar bg fg disp st ch).terminal j =
      if 0 ≤ st.x ∧ st.x < (st.width : Int) ∧ 0 ≤ st.y ∧
          st.y < (st.height : Int) ∧ j = st.y * (st.width : Int) + st.x
      then some (Cell.mk ch st.x st.y bg fg disp)
      else st.terminal j := by
  unfold writeChar CursorState.getPointerFromXY
  dsimp only
  by_cases h : 0 ≤ st.x ∧ st.x < (st.width : Int) ∧ 0 ≤ st.y ∧
      st.y < (st.height : Int)
  · rw [if_pos h]
    dsimp only
    by_cases hj : j = st.y * (st.width : Int) + st.x
    · rw [if_pos hj, if_pos ⟨h.1, h.2.1, h.2.2.1, h.2.2.2, hj⟩]
    · rw [if_neg hj, if_neg (by tauto)]
  · rw [if_neg h, if_neg (by tauto)]

/-- Full characterisation of the write fold, by induction on the data:
final cursor position, untouched state fields, the cell stored at every
in-bounds target slot, and the untouched remainder of the grid. -/
theorem writeLoop_spec (bg fg : Rgb) (disp : Display) (data : List Char) :
    ∀ st : CursorState,
      (data.foldl (writeChar bg fg disp) st).x = st.x + data.length ∧
      (data.foldl (writeChar bg fg disp) st).y = st.y ∧
      (data.foldl (writeChar bg fg disp) st).width = st.width ∧
      (data.foldl (writeChar bg fg disp) st).height = st.height ∧
      (data.foldl (writeChar bg fg disp) st).background = st.background ∧
      (data.foldl (writeChar bg fg disp) st).foreground = st.foreground ∧
      (data.foldl (writeChar bg fg disp) st).display = st.display ∧
      (data.foldl (writeChar bg fg disp) st).lastFrame = st.lastFrame ∧
      (∀ i : Nat, (hi : i < data.length) →
        0 ≤ st.x + (i : Int) → st.x + (i : Int) < (st.width : Int) →
        0 ≤ st.y → st.y < (st.height : Int) →
        (data.foldl (writeChar bg fg disp) st).terminal
            (st.y * (st.width : Int) + (st.x + (i : Int))) =
          some (Cell.mk (data.get ⟨i, hi⟩) (st.x + (i : Int)) st.y bg fg disp)) ∧
      (∀ j : Int,
        (∀ i : Nat, i < data.length →
          ¬(0 ≤ st.x + (i : Int) ∧ st.x + (i : Int) < (st.width : Int) ∧
            0 ≤ st.y ∧ st.y < (st.height : Int) ∧
            j = st.y * (st.width : Int) + (st.x + (i : Int)))) →
        (data.foldl (writeChar bg fg disp) st).terminal j = st.terminal j) := by
  induction data with
  | nil =>
    intro st
    refine ⟨by simp, rfl, rfl, rfl, rfl, rfl, rfl, rfl, ?_, ?_⟩
    · intro i hi
      exact absurd hi (by simp)
    · intro j _
      rfl
  | cons c cs ih =>
    intro st
    have hf := writeChar_fields bg fg disp st c
    obtain ⟨hx1, hy1, hw1, hh1, hb1, hfg1, hd1, hl1⟩ := hf
    obtain ⟨ihx, ihy, ihw, ihh, ihb, ihfg, ihd, ihl, ihstore, ihskip⟩ :=
      ih (writeChar bg fg disp st c)
    rw [List.foldl_cons]
    refine ⟨?_, ?_, ?_, ?_, ?_, ?_, ?_, ?_, ?_, ?_⟩
    · rw [ihx, hx1]
      simp only [List.length_cons]
      push_cast
      ring
    · rw [ihy, hy1]
    · rw [ihw, hw1]
    · rw [ihh, hh1]
    · rw [ihb, hb1]
    · rw [ihfg, hfg1]
    · rw [ihd, hd1]
    · rw [ihl, hl1]
    · intro i hi h0 h1 h2 h3
      match i with
      | 0 =>
        have hj0 : ∀ i2 : Nat, i2 < cs.length →
            ¬(0 ≤ (writeChar bg fg disp st c).x + (i2 : Int) ∧
              (writeChar bg fg disp st c).x + (i2 : Int) <
                ((writeChar bg fg disp st c).width : Int) ∧
              0 ≤ (writeChar bg fg disp st c).y ∧
              (writeChar bg fg disp st c).y <
                ((writeChar bg fg disp st c).height : Int) ∧
              st.y * (st.width : Int) + (st.x + (0 : Nat)) =
                (writeChar bg fg disp st c).y *
                    ((writeChar bg fg disp st c).width : Int) +
                  ((writeChar bg fg disp st c).x + (i2 : Int))) := by
          intro i2 _ hcon
          rw [hx1, hy1, hw1, hh1] at hcon
          omega
        rw [ihskip _ hj0, writeChar_terminal]
        rw [if_pos ⟨by omega, by omega, h2, h3, by omega⟩]
        simp
      | i + 1 =>
        have hstep := ihstore i (by simpa using hi) (by rw [hx1]; omega)
          (by rw [hx1, hw1]; omega) (by rw [hy1]; omega) (by rw [hy1, hh1]; omega)
        rw [hx1, hy1, hw1] at hstep
        have harith : st.y * (st.width : Int) + (st.x + 1 + (i : Int)) =
            st.y * (st.width : Int) + (st.x + ((i : Nat) + 1 : Nat)) := by
          push_cast
          ring
        rw [harith] at hstep
        rw [hstep]
        have hget : (c :: cs).get ⟨i + 1, hi⟩ = cs.get ⟨i, by simpa using hi⟩ := rfl
        rw [hget]
        have : st.x + 1 + (i : Int) = st.x + ((i : Nat) + 1 : Nat) := by
          push_cast
          ring
        rw [this]
    · intro j hj
      have hj1 : ∀ i2 : Nat, i2 < cs.length →
          ¬(0 ≤ (writeChar bg fg disp st c).x + (i2 : Int) ∧
            (writeChar bg fg disp st c).x + (i2 : Int) <
              ((writeChar bg fg disp st c).width : Int) ∧
            0 ≤ (writeChar bg fg disp st c).y ∧
            (writeChar bg fg disp st c).y <
              ((writeChar bg fg disp st c).height : Int) ∧
            j = (writeChar bg fg disp st c).y *
                  ((writeChar bg fg disp st c).width : Int) +
                ((writeChar bg fg disp st c).x + (i2 : Int))) := by
        intro i2 hi2 hcon
        rw [hx1, hy1, hw1, hh1] at hcon
        have := hj (i2 + 1) (by simpa using Nat.succ_lt_succ hi2)
        push_cast at this
        omega
      rw [ihskip _ hj1, writeChar_terminal]
      have h0 := hj 0 (by simp)
      rw [if_neg (by push_cast at h0; omega)]

/-- C2: writing a string of length `n` starting at `(x0, y0)` stores, for
each index `i` whose target `(x0 + i, y0)` is in bounds, a fresh Cell with
the i-th character and the pen captured at call entry at slot
`y0 * width + (x0 + i)`; out-of-bounds characters store nothing, no other
slot changes, there is no wrapping, and the cursor finishes at
`(x0 + n, y0)` regardless of bounds. -/
theorem c2_write_populates (st : CursorState) (data : List Char) :
    (write st data).x = st.x + data.length ∧
    (write st data).y = st.y ∧
    (write st data).background = st.background ∧
    (write st data).foreground = st.foreground ∧
    (write st data).display = st.display ∧
    (∀ i : Nat, (hi : i < data.length) →
      0 ≤ st.x + (i : Int) → st.x + (i : Int) < (st.width : Int) →
      0 ≤ st.y → st.y < (st.height : Int) →
      (write st data).terminal (st.y * (st.width : Int) + (st.x + (i : Int))) =
        some (Cell.mk (data.get ⟨i, hi⟩) (st.x + (i : Int)) st.y
          st.background st.foreground st.display)) ∧
    (∀ j : Int,
      (∀ i : Nat, i < data.length →
        ¬(0 ≤ st.x + (i : Int) ∧ st.x + (i : Int) < (st.width : Int) ∧
          0 ≤ st.y ∧ st.y < (st.height : Int) ∧
          j = st.y * (st.width : Int) + (st.x + (i : Int)))) →
      (write st data).terminal j = st.terminal j) := by
  obtain ⟨hx, hy, _, _, hb, hfg, hd, _, hstore, hskip⟩ :=
    writeLoop_spec st.background st.foreground st.display data st
  exact ⟨hx, hy, hb, hfg, hd, hstore, hskip⟩

/-- A display record with every attribute off. -/
def dispOff : Display := ⟨false, false, false, false, false, false⟩

/-- A sample pen color. -/
def rgbSample : Rgb := ⟨some 1, some 2, some 3⟩

/-- A 3-by-1 cursor state with an empty grid. -/
def stSample : CursorState :=
  { width := 3, height := 1, terminal := fun _ => none, x := 0, y := 0,
    background := rgbSample, foreground := rgbSample, display := dispOff,
    lastFrame := [] }

/-- Witness for C2: writing the two characters ab on the empty 3-by-1
grid stores b at slot 1, leaves slot 2 unwritten, and moves the cursor
to `x = 2`. -/
theorem c2_write_populates_witness :
    ((1 : Nat) < (['a', 'b'] : List Char).length ∧
      (0 : Int) ≤ stSample.x + ((1 : Nat) : Int) ∧
      stSample.x + ((1 : Nat) : Int) < (stSample.width : Int) ∧
      (0 : Int) ≤ stSample.y ∧ stSample.y < (stSample.height : Int)) ∧
    (write stSample ['a', 'b']).x = stSample.x + (['a', 'b'] : List Char).length ∧
    (write stSample ['a', 'b']).terminal
        (stSample.y * (stSample.width : Int) + (stSample.x + ((1 : Nat) : Int))) =
      some (Cell.mk 'b' (stSample.x + ((1 : Nat) : Int)) stSample.y
        stSample.background stSample.foreground stSample.display) ∧
    (write stSample ['a', 'b']).terminal 2 = stSample.terminal 2 := by
  refine ⟨by decide, (c2_write_populates stSample ['a', 'b']).1, ?_, ?_⟩
  · have h := (c2_write_populates stSample ['a', 'b']).2.2.2.2.2.1 1
      (by decide) (by decide) (by decide) (by decide) (by decide)
    simpa using h
  · exact (c2_write_populates stSample ['a', 'b']).2.2.2.2.2.2 2 (by decide)

/-- Replacing a character never changes which slots hold a cell. -/
theorem update_presence (t : Int → Option Cell) (i : Int) (c : Cell)
    (hc : t i = some c) (j : Int) :
    ((fun j2 => if j2 = i then some (c.setChar ' ') else t j2) j).isSome =
      (t j).isSome := by
  by_cases h : j = i <;> simp [h, hc]

/-- The erase loop terminates normally exactly when every visited
position holds a cell. -/
theorem eraseLoop_ok_iff (w : Nat) (ps : List (Int × Int)) :
    ∀ t : Int → Option Cell,
      (∃ t2, eraseLoop w t ps = .ok t2) ↔
        ∀ p ∈ ps, (t (p.2 * (w : Int) + p.1)).isSome = true := by
  induction ps with
  | nil =>
    intro t
    simp [eraseLoop]
  | cons p ps ih =>
    intro t
    constructor
    · intro ⟨t2, h2⟩
      unfold eraseLoop at h2
      cases hp : t (p.2 * (w : Int) + p.1) with
      | none =>
        rw [hp] at h2
        exact absurd h2 (by simp)
      | some c =>
        rw [hp] at h2
        intro q hq
        rcases List.mem_cons.mp hq with hq | hq
        · rw [hq, hp]
          rfl
        · have := (ih _).mp ⟨t2, h2⟩ q hq
          rwa [update_presence t _ c hp] at this
    · intro hall
      obtain ⟨c, hc⟩ := Option.isSome_iff_exists.mp
        (hall p (List.mem_cons_self p ps))
      unfold eraseLoop
      rw [hc]
      refine (ih _).mpr ?_
      intro q hq
      rw [update_presence t _ c hc]
      exact hall q (List.mem_cons_of_mem p hq)

/-- Final grid after a successful erase loop: every visited slot has its
character replaced by a space (other fields untouched), every other slot
is unchanged. -/
theorem eraseLoop_ok_final (w : Nat) (ps : List (Int × Int)) :
    ∀ t t2 : Int → Option Cell, eraseLoop w t ps = .ok t2 →
      ∀ j : Int,
        ((∃ p ∈ ps, p.2 * (w : Int) + p.1 = j) →
          t2 j = (t j).map (fun c => c.setChar ' ')) ∧
        ((∀ p ∈ ps, p.2 * (w : Int) + p.1 ≠ j) → t2 j = t j) := by
  induction ps with
  | nil =>
    intro t t2 h j
    unfold eraseLoop at h
    simp only [Except.ok.injEq] at h
    subst h
    refine ⟨?_, fun _ => rfl⟩
    intro ⟨p, hp, _⟩
    exact absurd hp (List.not_mem_nil p)
  | cons p ps ih =>
    intro t t2 h j
    unfold eraseLoop at h
    cases hp : t (p.2 * (w : Int) + p.1) with
    | none =>
      rw [hp] at h
      exact absurd h (by simp)
    | some c =>
      rw [hp] at h
      have ihj := ih _ t2 h j
      constructor
      · intro ⟨q, hq, hqj⟩
        rcases List.mem_cons.mp hq with hq | hq
        · subst hq
          by_cases hrest : ∃ q2 ∈ ps, q2.2 * (w : Int) + q2.1 = j
          · rw [ihj.1 hrest]
            subst hqj
            simp [hp, Cell.setChar]
          · push_neg at hrest
            rw [ihj.2 hrest]
            subst hqj
            simp [hp, Cell.setChar]
        · by_cases hj : j = p.2 * (w : Int) + p.1
          · rw [ihj.1 ⟨q, hq, hqj⟩, hj]
            simp [hp, Cell.setChar]
          · rw [ihj.1 ⟨q, hq, hqj⟩]
            rw [if_neg hj]
      · intro hall
        have hnotp : j ≠ p.2 * (w : Int) + p.1 :=
          fun hcon => hall p (List.mem_cons_self p ps) hcon.symm
        rw [ihj.2 (fun q hq => hall q (List.mem_cons_of_mem p hq))]
        rw [if_neg hnotp]

/-- Error case of the erase loop: if every position of a prefix holds a
cell and the next position does not, the loop throws, the prefix slots
have already been blanked in the error state, and every slot not visited
by the prefix is unchanged. -/
theorem eraseLoop_error_state (w : Nat) (qs : List (Int × Int)) :
    ∀ (t : Int → Option Cell) (p0 : Int × Int) (rest : List (Int × Int)),
      (∀ q ∈ qs, (t (q.2 * (w : Int) + q.1)).isSome = true) →
      t (p0.2 * (w : Int) + p0.1) = none →
      ∃ terr, eraseLoop w t (qs ++ p0 :: rest) = .error terr ∧
        (∀ q ∈ qs, terr (q.2 * (w : Int) + q.1) =
          (t (q.2 * (w : Int) + q.1)).map (fun c => c.setChar ' ')) ∧
        (∀ j : Int, (∀ q ∈ qs, q.2 * (w : Int) + q.1 ≠ j) → terr j = t j) := by
  induction qs with
  | nil =>
    intro t p0 rest _ hp0
    refine ⟨t, ?_, by simp, fun _ _ => rfl⟩
    rw [List.nil_append]
    simp only [eraseLoop]
    rw [hp0]
  | cons q qs ih =>
    intro t p0 rest hqs hp0
    obtain ⟨c, hc⟩ := Option.isSome_iff_exists.mp
      (hqs q (List.mem_cons_self q qs))
    have hqp0 : p0.2 * (w : Int) + p0.1 ≠ q.2 * (w : Int) + q.1 := by
      intro hcon
      rw [hcon, hc] at hp0
      exact absurd hp0 (by simp)
    obtain ⟨terr, herr, hblank, hkeep⟩ := ih
      (fun j => if j = q.2 * (w : Int) + q.1 then some (c.setChar ' ') else t j)
      p0 rest
      (fun q2 hq2 => by
        rw [update_presence t _ c hc]
        exact hqs q2 (List.mem_cons_of_mem q hq2))
      (by
        dsimp only
        rw [if_neg hqp0]
        exact hp0)
    refine ⟨terr, ?_, ?_, ?_⟩
    · rw [List.cons_append]
      simp only [eraseLoop]
      rw [hc]
      exact herr
    · intro q2 hq2
      rcases List.mem_cons.mp hq2 with hq2 | hq2
      · subst hq2
        by_cases hrest : ∀ q3 ∈ qs,
            q3.2 * (w : Int) + q3.1 ≠ q2.2 * (w : Int) + q2.1
        · rw [hkeep _ hrest]
          simp [hc, Cell.setChar]
        · push_neg at hrest
          obtain ⟨q3, hq3, hq3j⟩ := hrest
          have := hblank q3 hq3
          rw [hq3j] at this
          rw [this]
          simp [hc, Cell.setChar]
      · have := hblank q2 hq2
        rw [this]
        by_cases hj : q2.2 * (w : Int) + q2.1 = q.2 * (w : Int) + q.1
        · rw [hj]
          simp [hc, Cell.setChar]
        · rw [if_neg hj]
    · intro j hj
      have hnotq : q.2 * (w : Int) + q.1 ≠ j :=
        hj q (List.mem_cons_self q qs)
      rw [hkeep j (fun q2 hq2 => hj q2 (List.mem_cons_of_mem q hq2))]
      rw [if_neg (fun hcon => hnotq hcon.symm)]

/-- C3: erasing an inclusive rectangle whose every slot is in bounds and
holds a Cell succeeds, replaces the character of each rectangle Cell by a
single space while preserving that Cell's position, background,
foreground and display attributes, leaves every slot outside the
rectangle unchanged, and leaves the cursor position unchanged. -/
theorem c3_erase_preserves_attributes (st : CursorState) (x1 y1 x2 y2 : Int)
    (hx12 : x1 ≤ x2) (hy12 : y1 ≤ y2)
    (hin : ∀ p ∈ rectList x1 y1 x2 y2,
      (0 ≤ p.1 ∧ p.1 < (st.width : Int) ∧ 0 ≤ p.2 ∧
        p.2 < (st.height : Int)) ∧
      (st.terminal (p.2 * (st.width : Int) + p.1)).isSome = true) :
    ∃ st2, st.erase x1 y1 x2 y2 = .ok st2 ∧
      st2.x = st.x ∧ st2.y = st.y ∧
      (∀ p ∈ rectList x1 y1 x2 y2,
        ∃ c, st.terminal (p.2 * (st.width : Int) + p.1) = some c ∧
          st2.terminal (p.2 * (st.width : Int) + p.1) =
            some (Cell.mk ' ' c.x c.y c.background c.foreground c.display)) ∧
      (∀ j : Int,
        (∀ p ∈ rectList x1 y1 x2 y2, p.2 * (st.width : Int) + p.1 ≠ j) →
        st2.terminal j = st.terminal j) := by
  obtain ⟨t2, h2⟩ :=
    (eraseLoop_ok_iff st.width (rectList x1 y1 x2 y2) st.terminal).mpr
      (fun p hp => (hin p hp).2)
  refine ⟨{ st with terminal := t2 }, ?_, rfl, rfl, ?_, ?_⟩
  · unfold CursorState.erase
    rw [h2]
  · intro p hp
    obtain ⟨c, hc⟩ := Option.isSome_iff_exists.mp (hin p hp).2
    refine ⟨c, hc, ?_⟩
    have hfin := (eraseLoop_ok_final st.width _ st.terminal t2 h2
      (p.2 * (st.width : Int) + p.1)).1 ⟨p, hp, rfl⟩
    dsimp only
    rw [hfin, hc]
    rfl
  · intro j hj
    exact (eraseLoop_ok_final st.width _ st.terminal t2 h2 j).2 hj

/-- Witness for C3: after writing abc on the 3-by-1 grid, erasing the
full row succeeds. -/
theorem c3_erase_preserves_attributes_witness :
    ((0 : Int) ≤ 2 ∧ (0 : Int) ≤ (0 : Int) ∧
      (∀ p ∈ rectList 0 0 2 0,
        (0 ≤ p.1 ∧ p.1 < ((write stSample ['a', 'b', 'c']).width : Int) ∧
          0 ≤ p.2 ∧
          p.2 < ((write stSample ['a', 'b', 'c']).height : Int)) ∧
        ((write stSample ['a', 'b', 'c']).terminal
          (p.2 * ((write stSample ['a', 'b', 'c']).width : Int) + p.1)).isSome
            = true)) ∧
    ∃ st2, (write stSample ['a', 'b', 'c']).erase 0 0 2 0 = .ok st2 := by
  refine ⟨⟨by decide, by decide, by decide⟩, ?_⟩
  obtain ⟨st2, hok, _⟩ := c3_erase_preserves_attributes
    (write stSample ['a', 'b', 'c']) 0 0 2 0 (by decide) (by decide) (by decide)
  exact ⟨st2, hok⟩

/-- C4 counterexample: the claim says every erase absorbs out-of-bounds
addressing without an error, but erasing the wholly out-of-bounds
rectangle from `(3, 0)` to `(3, 0)` on an (empty) 3-by-1 grid reads the
undefined slot 3 and throws on the `.setChar` access. -/
theorem c4_erase_out_of_bounds_throws :
    stSample.erase 3 0 3 0 = .error stSample := rfl

/-- The erase method succeeds exactly when the erase loop does. -/
theorem erase_ok_iff_loop (st : CursorState) (x1 y1 x2 y2 : Int) :
    (∃ st2, st.erase x1 y1 x2 y2 = .ok st2) ↔
      (∃ t2, eraseLoop st.width st.terminal (rectList x1 y1 x2 y2) =
        .ok t2) := by
  constructor
  · intro ⟨st2, h⟩
    unfold CursorState.erase at h
    cases he : eraseLoop st.width st.terminal (rectList x1 y1 x2 y2) with
    | ok t2 => exact ⟨t2, rfl⟩
    | error t =>
      rw [he] at h
      exact absurd h (by simp)
  · intro ⟨t2, h⟩
    refine ⟨{ st with terminal := t2 }, ?_⟩
    unfold CursorState.erase
    rw [h]

/-- C4 (amended): the movement operations and `write` are total -- every
argument value, in or out of bounds, produces a result state, and write
absorbs out-of-bounds storage while still advancing the cursor -- but
`erase` raises an error exactly when some slot of its inclusive
rectangle (by pointer arithmetic, including out-of-bounds coordinates)
holds no Cell; such addressing is not absorbed.  (The claim as stated
says erase also never raises.) -/
theorem c4_erase_error_characterisation (st : CursorState)
    (x1 y1 x2 y2 dx dy x0 y0 n : Int) (data : List Char) :
    ((∃ st2, st.erase x1 y1 x2 y2 = .ok st2) ↔
      (∀ p ∈ rectList x1 y1 x2 y2,
        (st.terminal (p.2 * (st.width : Int) + p.1)).isSome = true)) ∧
    (st.moveTo x0 y0).x = x0 ∧ (st.moveTo x0 y0).y = y0 ∧
    (st.moveBy dx dy).x = st.x + dx ∧ (st.moveBy dx dy).y = st.y + dy ∧
    (st.up n).y = st.y - n ∧ (st.down n).y = st.y + n ∧
    (st.left n).x = st.x - n ∧ (st.right n).x = st.x + n ∧
    (write st data).x = st.x + data.length ∧ (write st data).y = st.y := by
  refine ⟨?_, rfl, rfl, ?_, ?_, rfl, rfl, rfl, rfl,
    (writeLoop_spec st.background st.foreground st.display data st).1,
    (writeLoop_spec st.background st.foreground st.display data st).2.1⟩
  · exact (erase_ok_iff_loop st x1 y1 x2 y2).trans
      (eraseLoop_ok_iff st.width (rectList x1 y1 x2 y2) st.terminal)
  · unfold CursorState.moveBy CursorState.left CursorState.right
      CursorState.up CursorState.down
    dsimp only
    split_ifs <;> simp <;> omega
  · unfold CursorState.moveBy CursorState.left CursorState.right
      CursorState.up CursorState.down
    dsimp only
    split_ifs <;> simp <;> omega

/-- A sample written cell for the partially-written grid. -/
def cellSample : Cell := ⟨'q', 0, 0, rgbSample, rgbSample, dispOff⟩

/-- A 2-by-1 grid whose slot 0 is written and slot 1 is not. -/
def stHalf : CursorState :=
  { width := 2, height := 1,
    terminal := fun j => if j = 0 then some cellSample else none,
    x := 0, y := 0, background := rgbSample, foreground := rgbSample,
    display := dispOff, lastFrame := [] }

/-- C10: erasing a rectangle that contains a slot holding no Cell raises
an error rather than materialising a blank Cell or skipping the slot, and
the rectangle positions visited before the first missing slot in the
row-major loop order have already had their character replaced by a space
in the state observed when the error propagates -- erase is not atomic on
this failure.  Slots not visited before the failure are unchanged. -/
theorem c10_erase_nonatomic_throw (st : CursorState) (x1 y1 x2 y2 : Int)
    (qs : List (Int × Int)) (p0 : Int × Int) (rest : List (Int × Int))
    (hsplit : rectList x1 y1 x2 y2 = qs ++ p0 :: rest)
    (hqs : ∀ q ∈ qs, (st.terminal (q.2 * (st.width : Int) + q.1)).isSome = true)
    (hp0 : st.terminal (p0.2 * (st.width : Int) + p0.1) = none) :
    ∃ st2, st.erase x1 y1 x2 y2 = .error st2 ∧
      (∀ q ∈ qs, ∃ c, st.terminal (q.2 * (st.width : Int) + q.1) = some c ∧
        st2.terminal (q.2 * (st.width : Int) + q.1) =
          some (Cell.mk ' ' c.x c.y c.background c.foreground c.display)) ∧
      (∀ j : Int, (∀ q ∈ qs, q.2 * (st.width : Int) + q.1 ≠ j) →
        st2.terminal j = st.terminal j) := by
  obtain ⟨terr, herr, hblank, hkeep⟩ :=
    eraseLoop_error_state st.width qs st.terminal p0 rest hqs hp0
  refine ⟨{ st with terminal := terr }, ?_, ?_, ?_⟩
  · unfold CursorState.erase
    rw [hsplit, herr]
  · intro q hq
    obtain ⟨c, hc⟩ := Option.isSome_iff_exists.mp (hqs q hq)
    refine ⟨c, hc, ?_⟩
    have := hblank q hq
    dsimp only
    rw [this, hc]
    rfl
  · intro j hj
    exact hkeep j hj

/-- Witness for C10 on the half-written 2-by-1 grid: erasing the full row
throws, and the written slot 0 has already been blanked in the error
state. -/
theorem c10_erase_nonatomic_throw_witness :
    (rectList 0 0 1 0 =
        ([((0 : Int), (0 : Int))] : List (Int × Int)) ++
          ((1 : Int), (0 : Int)) :: ([] : List (Int × Int)) ∧
      (∀ q ∈ ([((0 : Int), (0 : Int))] : List (Int × Int)),
        (stHalf.terminal (q.2 * (stHalf.width : Int) + q.1)).isSome = true) ∧
      stHalf.terminal
        (((1 : Int), (0 : Int)).2 * (stHalf.width : Int) +
          ((1 : Int), (0 : Int)).1) = none) ∧
    ∃ st2, stHalf.erase 0 0 1 0 = .error st2 ∧
      st2.terminal 0 = some (Cell.mk ' ' 0 0 rgbSample rgbSample dispOff) := by
  refine ⟨⟨by decide, by decide, by decide⟩, ?_⟩
  obtain ⟨st2, herr, hblank, _⟩ := c10_erase_nonatomic_throw stHalf 0 0 1 0
    [((0 : Int), (0 : Int))] ((1 : Int), (0 : Int)) [] (by decide) (by decide)
    (by decide)
  refine ⟨st2, herr, ?_⟩
  obtain ⟨c, hc, hb⟩ := hblank ((0 : Int), (0 : Int)) (by decide)
  have hcell : c = cellSample := by
    have h0 : stHalf.terminal
        (((0 : Int), (0 : Int)).2 * (stHalf.width : Int) +
          ((0 : Int), (0 : Int)).1) = some cellSample := by decide
    rw [h0] at hc
    exact (Option.some.inj hc).symm
  rw [hcell] at hb
  simpa using hb

/-- Row-major decomposition of the linear index range. -/
theorem range_mul_flatMap (w h : Nat) :
    List.range (w * h) =
      (List.range h).flatMap (fun y => (List.range w).map (fun x => y * w + x)) := by
  induction h with
  | zero => simp
  | succ h ih =>
    rw [List.range_succ, List.flatMap_append, ← ih,
      show w * (h + 1) = w * h + w by ring, List.range_add]
    congr 1
    rw [List.flatMap_singleton]
    exact List.map_congr_left (fun x _ => by ring)

/-- The stored cells in buffer order are the stored cells row by row, in
each row slot by slot. -/
theorem storedCells_rowMajor (st : CursorState) :
    storedCells st =
      (List.range st.height).flatMap (fun y =>
        (List.range st.width).filterMap (fun x =>
          st.terminal ((y * st.width + x : Nat) : Int))) := by
  unfold storedCells
  rw [range_mul_flatMap st.width st.height, List.filterMap_flatMap]
  congr 1
  funext y
  rw [List.filterMap_map]
  rfl

/-- C1: for every buffer state and retained snapshot, `flush` emits --
in the single string handed to the output sink -- exactly the
concatenation, in row-major slot order, of the encodings of the
currently-stored Cells whose encoding is not a member of the retained
snapshot, then replaces the snapshot by the encodings of all
currently-stored Cells while leaving the grid untouched; consequently a
second `flush` with no intervening mutation emits the empty string. -/
theorem c1_flush_emits_diff (st : CursorState) :
    (flush st).2 = String.join
      ((((List.range st.height).flatMap (fun y =>
          (List.range st.width).filterMap (fun x =>
            st.terminal ((y * st.width + x : Nat) : Int)))).filter
        (fun c => !(st.lastFrame.contains c.encode))).map Cell.encode) ∧
    (flush st).1.lastFrame =
      ((List.range st.height).flatMap (fun y =>
        (List.range st.width).filterMap (fun x =>
          st.terminal ((y * st.width + x : Nat) : Int)))).map Cell.encode ∧
    (flush st).1.terminal = st.terminal ∧
    (flush st).1.width = st.width ∧
    (flush st).1.height = st.height ∧
    (flush st).1.x = st.x ∧
    (flush st).1.y = st.y ∧
    (flush (flush st).1).2 = "" := by
  have hs := storedCells_rowMajor st
  refine ⟨?_, ?_, rfl, rfl, rfl, rfl, rfl, ?_⟩
  · show String.join (((storedCells st).filter
        (fun c => !(st.lastFrame.contains c.encode))).map Cell.encode) = _
    rw [hs]
  · show ((storedCells st).map Cell.encode) = _
    rw [hs]
  · have hsc : storedCells ((flush st).1) = storedCells st := rfl
    show String.join (((storedCells ((flush st).1)).filter
        (fun c => !(((flush st).1).lastFrame.contains c.encode))).map
          Cell.encode) = ""
    rw [hsc]
    have hlf : ((flush st).1).lastFrame = (storedCells st).map Cell.encode := rfl
    rw [hlf]
    have hnil : (storedCells st).filter
        (fun c => !(((storedCells st).map Cell.encode).contains c.encode)) =
          [] := by
      refine List.filter_eq_nil_iff.mpr ?_
      intro c hc
      simp only [Bool.not_eq_true', Bool.not_eq_true]
      intro hcon
      have hmem : (List.map Cell.encode (storedCells st)).contains c.encode
          = true :=
        List.elem_iff.mpr (List.mem_map_of_mem Cell.encode hc)
      rw [hcon] at hmem
      exact absurd hmem (by simp)
    rw [hnil]
    rfl

end TerminalCanvas
